import Mathlib

/-!
Verification of the client-side live-data reconciliation layer of the
chickenroad-tracker repository: the WebSocket reconnect/backoff state machine
(`src/frontend/src/hooks/useWebSocket.js`), the live-feed buffer and demo
generator (the `LiveFeed` component), and the stats-fetching hook (`useStats`).

The JavaScript is embedded shallowly: each handler of the hook becomes a Lean
function on an explicit state record, timers and socket events become an event
type acted on by a step function, and JS decimal literals become rationals.
-/

namespace ChickenRoad

/-! ## Configuration constants, from `src/frontend/src/config/gameConfig.js` -/

/-- `gameConfig.ui.liveFeedLimit`: maximum items in the live feed. -/
def liveFeedLimit : Nat := 20

/-- `gameConfig.maxLanes`: maximum lanes that can be crossed. -/
def maxLanes : Nat := 5

/-- `gameConfig.ui.historyLimit`: maximum items in the history display. -/
def historyLimit : Nat := 100

/-- `gameConfig.ui.refreshInterval`: stats refresh interval in ms. -/
def refreshInterval : Nat := 5000

/-! ## Connection manager state machine, from `useWebSocket.js`

The hook's mutable cells are `connected`, `error`, `wsRef`,
`reconnectTimeoutRef` and `reconnectAttemptsRef`.  `wsPresent` models
`wsRef.current !== null`, `pending` models the reconnect timer together with
the delay it was armed with, and `socketsLive` counts WebSocket objects that
have been constructed and whose close event has not yet fired (environment
bookkeeping: the JS code itself holds at most one reference, but sockets it
stops referencing keep existing until closed). -/

/-- `maxReconnectAttempts` in `useWebSocket.js` line 14. -/
def maxReconnectAttempts : Nat := 5

structure ConnState where
  connected : Bool
  error : Option String
  wsPresent : Bool
  socketsLive : Nat
  attempts : Nat
  pending : Option Nat

/-- State of the hook before `connect()` is first called. -/
def freshConn : ConnState :=
  { connected := false, error := none, wsPresent := false,
    socketsLive := 0, attempts := 0, pending := none }

/-- The `connect` callback, lines 16–99: bail out with a terminal error once
the attempt ceiling is reached, otherwise construct a new WebSocket and store
it in `wsRef.current` (overwriting, without closing, whatever was there). -/
def connect (s : ConnState) : ConnState :=
  if maxReconnectAttempts ≤ s.attempts then
    { s with error := some "Max reconnection attempts reached. Please refresh the page." }
  else
    { s with wsPresent := true, socketsLive := s.socketsLive + 1 }

/-- The `onopen` handler, lines 31–36. -/
def onopen (s : ConnState) : ConnState :=
  { s with connected := true, error := none, attempts := 0 }

/-- The `onerror` handler, lines 75–78. -/
def onerror (s : ConnState) : ConnState :=
  { s with error := some "Connection error occurred" }

/-- The `onclose` handler, lines 80–94: mark disconnected and, when the
attempt counter is still below the ceiling, arm the reconnect timer with the
exponential-backoff delay `min(1000 * 2^attempts, 30000)`.  The closing socket
is no longer live. -/
def onclose (s : ConnState) : ConnState :=
  let s1 := { s with connected := false, socketsLive := s.socketsLive - 1 }
  if s1.attempts < maxReconnectAttempts then
    { s1 with pending := some (min (1000 * 2 ^ s1.attempts) 30000) }
  else
    s1

/-- The reconnect timer callback, lines 89–92: increment the attempt counter
and call `connect` again.  Fires only when a timer is armed. -/
def timerFire (s : ConnState) : ConnState :=
  match s.pending with
  | some _ => connect { s with attempts := s.attempts + 1, pending := none }
  | none => s

/-- The `disconnect` callback, lines 101–112: clear the reconnect timer, close
the socket and drop the reference, and mark disconnected.  The `close` call
only initiates closing; the socket's own close event is modelled as a later
`closeEvt`, which is when `socketsLive` drops. -/
def disconnect (s : ConnState) : ConnState :=
  let s1 := { s with pending := none }
  let s2 := if s1.wsPresent then { s1 with wsPresent := false } else s1
  { s2 with connected := false }

/-- External events driving the hook's state. -/
inductive ConnEvent where
  | connectCall
  | openEvt
  | errorEvt
  | closeEvt
  | timerEvt
  | disconnectCall

def connStep (s : ConnState) : ConnEvent → ConnState
  | ConnEvent.connectCall => connect s
  | ConnEvent.openEvt => onopen s
  | ConnEvent.errorEvt => onerror s
  | ConnEvent.closeEvt => onclose s
  | ConnEvent.timerEvt => timerFire s
  | ConnEvent.disconnectCall => disconnect s

/-- Run a sequence of events from a state. -/
def runConn (s : ConnState) (es : List ConnEvent) : ConnState :=
  es.foldl connStep s

/-- One failure cycle: the open attempt fails (close event) and the armed
reconnect timer later fires, retrying. -/
def failCycle (s : ConnState) : ConnState :=
  timerFire (onclose s)

/-- State after an initial `connect()` from fresh state followed by `k`
complete failure cycles with no intervening success. -/
def afterFailures (k : Nat) : ConnState :=
  failCycle^[k] (connect freshConn)

/-- Delay armed by the `k`-th consecutive failure (1-based) from fresh state:
the value of the reconnect timer right after the `k`-th close event. -/
def delayOfFailure (k : Nat) : Option Nat :=
  (onclose (afterFailures (k - 1))).pending

/-- C1: from a fresh state, the `k`-th consecutive failure (no intervening
success) arms a retry delay of `min(1000 * 2^(k-1), 30000)` ms, so five
consecutive failures schedule 1000, 2000, 4000, 8000, 16000 ms; a sixth
failure arms no retry; and any successful open resets the attempt counter to
0, so the next failure's delay is 1000 ms again. -/
theorem backoff_delay_spec :
    (∀ k : Fin 5, delayOfFailure ((k : Nat) + 1)
        = some (min (1000 * 2 ^ (k : Nat)) 30000)) ∧
    delayOfFailure 1 = some 1000 ∧
    delayOfFailure 2 = some 2000 ∧
    delayOfFailure 3 = some 4000 ∧
    delayOfFailure 4 = some 8000 ∧
    delayOfFailure 5 = some 16000 ∧
    delayOfFailure 6 = none ∧
    (∀ s : ConnState, (onopen s).attempts = 0 ∧
      (onclose (onopen s)).pending = some 1000) := by
  refine ⟨by decide, by decide, by decide, by decide, by decide, by decide, by decide, ?_⟩
  intro s
  exact ⟨rfl, rfl⟩

/-- The run exhibiting the deliberate-disconnect bug: `connect()` succeeds,
`disconnect()` is called, and then the deliberately closed socket's close
event arrives. -/
def disconnectRun : ConnState :=
  runConn freshConn
    [ConnEvent.connectCall, ConnEvent.openEvt,
     ConnEvent.disconnectCall, ConnEvent.closeEvt]

/-- C2: evaluating the code at the failing input.  After `disconnect()` the
close event of the deliberately closed socket still reaches the `onclose`
handler, which has no deliberate-close guard: with the attempt counter at 0 it
arms a 1000 ms reconnect timer, contradicting the requirement that
`disconnect()` never triggers an auto-reconnect. -/
theorem disconnect_then_close_schedules_retry :
    disconnectRun.pending = some 1000 ∧
    disconnectRun.connected = false ∧
    (disconnect (onopen (connect freshConn))).pending = none := by
  refine ⟨by decide, by decide, by decide⟩

/-- The run for the connect-idempotence counterexample: `connect()` succeeds
and then `connect()` is called again while connected. -/
def doubleConnectRun : ConnState :=
  runConn freshConn
    [ConnEvent.connectCall, ConnEvent.openEvt, ConnEvent.connectCall]

/-- C3 counterexample: calling `connect()` while already connected constructs
a second WebSocket without closing the first, so two live channels exist at
once — `connect()` is not idempotent in the connected state. -/
theorem connect_not_idempotent_cex :
    doubleConnectRun.connected = true ∧
    doubleConnectRun.socketsLive = 2 ∧
    ¬ doubleConnectRun.socketsLive ≤ 1 := by
  refine ⟨by decide, by decide, by decide⟩

/-- C3 amended: `connect()` is not guarded by the current connection state.
Whenever the attempt ceiling has not been reached — in particular when
already connecting or connected — it constructs a new channel, incrementing
the number of live sockets, and only the ceiling makes it a no-op on the
channel state. -/
theorem connect_always_opens_new_channel (s : ConnState)
    (h : s.attempts < maxReconnectAttempts) :
    (connect s).socketsLive = s.socketsLive + 1 ∧
    (connect s).wsPresent = true ∧
    (connect s).connected = s.connected := by
  unfold connect
  rw [if_neg (Nat.not_le.mpr h)]
  exact ⟨rfl, rfl, rfl⟩

/-- Witness for `connect_always_opens_new_channel` at the connected state
reached by a successful first `connect()`. -/
theorem connect_always_opens_new_channel_witness :
    (onopen (connect freshConn)).attempts < maxReconnectAttempts ∧
    ((connect (onopen (connect freshConn))).socketsLive
        = (onopen (connect freshConn)).socketsLive + 1 ∧
      (connect (onopen (connect freshConn))).wsPresent = true ∧
      (connect (onopen (connect freshConn))).connected
        = (onopen (connect freshConn)).connected) :=
  ⟨by decide, connect_always_opens_new_channel (onopen (connect freshConn)) (by decide)⟩

/-! ## Crossing events and the demo generator, from the `LiveFeed` component

JS decimal literals are embedded as the exact rationals they denote, written
with `mkRat` so that concrete instances evaluate by kernel reduction
(`0.7 = mkRat 7 10`, `1.2 = mkRat 12 10`, and so on).  The generator's
string-valued fields (`id`, `timestamp`, `betAmount`) are formatting of fresh
randomness and the current time; no claim mentions them, so they are omitted
from the event record. -/

inductive Outcome where
  | crossed
  | hit
deriving DecidableEq

structure CrossingEvent where
  lanesCrossed : Nat
  outcome : Outcome
  multiplier : ℚ
deriving DecidableEq

/-- The multiplier lookup table `[1.2, 1.5, 2.0, 3.5, 8.0]` from
`generateMockCrossing`. -/
def crossingMultipliers : List ℚ :=
  [mkRat 12 10, mkRat 15 10, mkRat 2 1, mkRat 35 10, mkRat 8 1]

/-- The local `wasHit` of `generateMockCrossing`:
`lanesCrossed < 5 && Math.random() > 0.7`, with the random draw passed in as
`hitRoll`. -/
def mockWasHit (lanesCrossed : Nat) (hitRoll : ℚ) : Bool :=
  decide (lanesCrossed < 5) && decide (mkRat 7 10 < hitRoll)

/-- The local `multiplier` of `generateMockCrossing`:
`lanesCrossed === 0 ? 0 : [1.2, 1.5, 2.0, 3.5, 8.0][lanesCrossed - 1]`. -/
def mockMultiplier (lanesCrossed : Nat) : ℚ :=
  if lanesCrossed = 0 then 0 else crossingMultipliers.getD (lanesCrossed - 1) 0

/-- `generateMockCrossing` from the `LiveFeed` component, parameterised by its
two random draws: `lanesRoll` is the result of `Math.floor(Math.random() * 6)`
and `hitRoll` the draw compared against 0.7. -/
def generateMockCrossing (lanesRoll : Fin 6) (hitRoll : ℚ) : CrossingEvent :=
  { lanesCrossed := lanesRoll,
    outcome := if mockWasHit lanesRoll hitRoll then Outcome.hit else Outcome.crossed,
    multiplier := if mockWasHit lanesRoll hitRoll then 0 else mockMultiplier lanesRoll }

/-- The CrossingEvent data-model invariant, stated from the specification's
words (§3) for comparison with the generator: a `crossed` outcome means all
lanes were crossed with a positive multiplier, a `hit` outcome means fewer
than all lanes with multiplier 0. -/
def satisfiesCrossingInvariant (lanes : Nat) (e : CrossingEvent) : Prop :=
  (e.outcome = Outcome.crossed → e.lanesCrossed = lanes ∧ 0 < e.multiplier) ∧
  (e.outcome = Outcome.hit → e.lanesCrossed < lanes ∧ e.multiplier = 0)

instance (lanes : Nat) (e : CrossingEvent) :
    Decidable (satisfiesCrossingInvariant lanes e) := by
  unfold satisfiesCrossingInvariant
  infer_instance

/-- C4 counterexample: with `lanesRoll = 3` and a hit roll of `0.5` the
generator emits `outcome = crossed` with `lanesCrossed = 3 ≠ 5`, violating the
data-model invariant (the spec itself flags this in §9). -/
theorem mock_crossing_invariant_cex :
    ¬ satisfiesCrossingInvariant maxLanes (generateMockCrossing 3 (mkRat 1 2)) := by
  decide

/-- C4 amended: only the `hit` half of the invariant holds of the generator —
every generated event with `outcome = hit` has `lanesCrossed < maxLanes` and
`multiplier = 0`.  The `crossed` half fails: `crossed` can be emitted with
`lanesCrossed < 5` (see the counterexample), and with `multiplier = 0` when
`lanesCrossed = 0`. -/
theorem mock_crossing_hit_half (lanesRoll : Fin 6) (hitRoll : ℚ)
    (h : (generateMockCrossing lanesRoll hitRoll).outcome = Outcome.hit) :
    (generateMockCrossing lanesRoll hitRoll).lanesCrossed < maxLanes ∧
    (generateMockCrossing lanesRoll hitRoll).multiplier = 0 := by
  by_cases hw : mockWasHit (lanesRoll : Nat) hitRoll
  · have hl : ((lanesRoll : Nat) < 5) := by
      have hb := hw
      unfold mockWasHit at hb
      rw [Bool.and_eq_true, decide_eq_true_eq, decide_eq_true_eq] at hb
      exact hb.1
    constructor
    · simpa [generateMockCrossing, maxLanes] using hl
    · simp [generateMockCrossing, hw]
  · exfalso
    have : (generateMockCrossing lanesRoll hitRoll).outcome = Outcome.crossed := by
      simp [generateMockCrossing, hw]
    rw [this] at h
    exact Outcome.noConfusion h

/-- Witness for `mock_crossing_hit_half`: `lanesRoll = 2`, `hitRoll = 0.9`
produce a `hit` event, and it satisfies the hit half of the invariant. -/
theorem mock_crossing_hit_half_witness :
    (generateMockCrossing 2 (mkRat 9 10)).outcome = Outcome.hit ∧
    ((generateMockCrossing 2 (mkRat 9 10)).lanesCrossed < maxLanes ∧
      (generateMockCrossing 2 (mkRat 9 10)).multiplier = 0) :=
  ⟨by decide, mock_crossing_hit_half 2 (mkRat 9 10) (by decide)⟩

/-! ## Inbound message handling, from the `onmessage` handler of
`useWebSocket.js` (lines 38–73)

Messages carry a `type` discriminator and a payload; the payload of a
`crossing` or `history` message is treated opaquely by the handler, so it is a
type parameter here.  The handler reads and writes only the `crossings` state
and, for `ping`, sends on the socket when it is open
(`wsRef.current?.readyState === WebSocket.OPEN`, the `isOpen` argument); its
result is the new buffer together with the list of sent replies. -/

inductive OutMessage where
  | pong
deriving DecidableEq

inductive WsMessage (α : Type) where
  | crossing (payload : α)
  | history (payload : List α)
  | stats
  | ping
  | unknown (tag : String)

def onmessage {α : Type} (msg : WsMessage α) (isOpen : Bool)
    (crossings : List α) : List α × List OutMessage :=
  match msg with
  | WsMessage.crossing e => ((e :: crossings).take liveFeedLimit, [])
  | WsMessage.history l => (l.take liveFeedLimit, [])
  | WsMessage.stats => (crossings, [])
  | WsMessage.ping => (crossings, if isOpen then [OutMessage.pong] else [])
  | WsMessage.unknown _ => (crossings, [])

/-- Prepending one element and re-truncating a truncated list is the same as
prepending to the untruncated list and truncating. -/
theorem take_cons_take {α : Type} (n : Nat) (e : α) (l : List α) :
    (e :: l.take n).take n = (e :: l).take n := by
  cases n with
  | zero => simp
  | succ m =>
    simp only [List.take_succ_cons, List.take_take, List.cons.injEq, true_and]
    exact congrArg (fun k => l.take k) (Nat.min_eq_left (Nat.le_succ m))

/-- Folding the `crossing` case of the handler over a list of events, started
from any truncated buffer, keeps the most recent `liveFeedLimit` events in
newest-first order. -/
theorem foldl_crossing_take {α : Type} (es : List α) :
    ∀ l : List α,
      es.foldl (fun buf e => (onmessage (WsMessage.crossing e) true buf).1)
        (l.take liveFeedLimit)
      = (es.reverse ++ l).take liveFeedLimit := by
  induction es with
  | nil => intro l; simp
  | cons e es ih =>
    intro l
    have h1 : (onmessage (WsMessage.crossing e) true (l.take liveFeedLimit)).1
        = (e :: l).take liveFeedLimit := take_cons_take liveFeedLimit e l
    simp only [List.foldl_cons]
    rw [h1, ih (e :: l)]
    simp [List.append_assoc]

/-- Feed buffer after a sequence of `crossing` messages applied (in order) to
an initially empty buffer, each handled on an open channel. -/
def feedAfterCrossings {α : Type} (es : List α) : List α :=
  es.foldl (fun buf e => (onmessage (WsMessage.crossing e) true buf).1) []

/-- C5: after any sequence of `crossing` prepends into an empty feed buffer,
the buffer holds exactly the `min(k, liveFeedLimit)` most recently prepended
events in newest-first order; beyond capacity the oldest entries are the ones
evicted. -/
theorem prepend_keeps_latest {α : Type} (es : List α) :
    feedAfterCrossings es = es.reverse.take liveFeedLimit ∧
    (feedAfterCrossings es).length = min es.length liveFeedLimit := by
  have he : feedAfterCrossings es = es.reverse.take liveFeedLimit := by
    have h := foldl_crossing_take es []
    simpa [feedAfterCrossings] using h
  refine ⟨he, ?_⟩
  rw [he, List.length_take, List.length_reverse, Nat.min_comm]

/-- C6: a `history` message replaces the whole buffer with the payload
truncated to capacity: the result has length `min(M, liveFeedLimit)` and
agrees with the payload elementwise from the front, regardless of the previous
buffer contents. -/
theorem history_replaces_truncated {α : Type} (l buf : List α) (isOpen : Bool) :
    (onmessage (WsMessage.history l) isOpen buf).1 = l.take liveFeedLimit ∧
    ((onmessage (WsMessage.history l) isOpen buf).1).length
      = min l.length liveFeedLimit ∧
    (∀ i : Nat, i < ((onmessage (WsMessage.history l) isOpen buf).1).length →
      ((onmessage (WsMessage.history l) isOpen buf).1)[i]? = l[i]?) := by
  refine ⟨rfl, ?_, ?_⟩
  · simp [onmessage, List.length_take, Nat.min_comm]
  · intro i hi
    have hi2 : i < liveFeedLimit := by
      simp only [onmessage, List.length_take] at hi
      omega
    simp [onmessage, List.getElem?_take, hi2]

/-- Witness for `history_replaces_truncated` at a payload of length 25 > 20:
index 0 is below the truncated length and the element there is the payload's
first element. -/
theorem history_replaces_truncated_witness :
    0 < ((onmessage (WsMessage.history (List.range 25)) true ([7] : List Nat)).1).length ∧
    ((onmessage (WsMessage.history (List.range 25)) true ([7] : List Nat)).1)[0]?
      = (List.range 25)[0]? :=
  ⟨by decide,
   (history_replaces_truncated (List.range 25) [7] true).2.2 0 (by decide)⟩

/-- C9: a `ping` handled while the channel is open produces exactly one `pong`
reply, a `ping` on a closed channel produces none, and no other message type
ever produces a `pong`. -/
theorem ping_pong_reply {α : Type} (buf : List α) :
    ((onmessage (WsMessage.ping : WsMessage α) true buf).2 = [OutMessage.pong]) ∧
    ((onmessage (WsMessage.ping : WsMessage α) false buf).2 = []) ∧
    (∀ (m : WsMessage α) (isOpen : Bool),
      OutMessage.pong ∈ (onmessage m isOpen buf).2 → m = WsMessage.ping) := by
  refine ⟨rfl, rfl, ?_⟩
  intro m isOpen hm
  cases m <;> simp [onmessage] at hm ⊢

/-- Witness for `ping_pong_reply`: on an open channel the single reply to a
`ping` is a `pong`, and the only-ping-pongs direction applied there. -/
theorem ping_pong_reply_witness :
    OutMessage.pong ∈ (onmessage (WsMessage.ping : WsMessage Nat) true []).2 ∧
    (WsMessage.ping : WsMessage Nat) = WsMessage.ping :=
  ⟨by decide, (ping_pong_reply ([] : List Nat)).2.2 WsMessage.ping true (by decide)⟩

/-! ## Demo generator ticks, from the `LiveFeed` effect (lines 42–51)

The effect installs the tick interval only when neither `connected` nor
`isPaused` holds; one tick prepends a freshly generated event and truncates.
A tick under `connected` or `isPaused` therefore leaves the buffer as is. -/

def demoTick {α : Type} (connected isPaused : Bool) (buf : List α) (e : α) :
    List α :=
  if connected || isPaused then buf
  else (e :: buf).take liveFeedLimit

/-- C7: while `connected` holds (and likewise while paused), any number of
demo ticks leaves the feed buffer unchanged — the synthetic generator never
inserts an event. -/
theorem demo_generator_suppressed {α : Type} (es : List α) (buf : List α) :
    (∀ isPaused : Bool, es.foldl (demoTick true isPaused) buf = buf) ∧
    (∀ connected : Bool, es.foldl (demoTick connected true) buf = buf) := by
  constructor
  · intro p
    induction es with
    | nil => rfl
    | cons e es ih => simpa [demoTick] using ih
  · intro c
    induction es with
    | nil => rfl
    | cons e es ih => simpa [demoTick] using ih

/-! ## Stats aggregator, from the `useStats` hook

The hook's state cells are `stats`, `laneStats`, `history` and `error`
(`loading` tracks only the initial bulk refetch and no claim mentions it).
Each fetch either resolves with parsed data or rejects with an error message;
the completion of one fetch is embedded as a function from the current state
and an `Except` result to the next state, exactly following the `try/catch`
bodies of `fetchStats`, `fetchLaneStats` and `fetchHistory`. -/

/-- The aggregate counters read by `useStats`' derived computation.  The
snapshot arrives as JSON and is stored wholesale; only these four fields are
ever read by the subsystem. -/
structure StatsSnapshot where
  totalRounds : Nat
  totalCrossings : Nat
  successfulCrossings : Nat
  totalLanesCrossed : Nat
deriving DecidableEq

/-- One per-lane record as served by `GET /lane-stats`. -/
structure LaneRecord where
  lane : Nat
  attempts : Nat
  success : Nat
  successRate : ℚ
deriving DecidableEq

structure StatsState where
  stats : Option StatsSnapshot
  laneStats : Option (List LaneRecord)
  history : List CrossingEvent
  error : Option String

/-- Completion of `fetchStats` (lines 15–30): success stores the snapshot
wholesale and clears the error; failure records the error message and leaves
the snapshot alone. -/
def fetchStatsResult (s : StatsState) (r : Except String StatsSnapshot) :
    StatsState :=
  match r with
  | Except.ok d => { s with stats := some d, error := none }
  | Except.error m => { s with error := some m }

/-- Completion of `fetchLaneStats` (lines 33–47): success stores the records;
failure changes nothing ("Lane stats error doesn't override main error"). -/
def fetchLaneStatsResult (s : StatsState) (r : Except String (List LaneRecord)) :
    StatsState :=
  match r with
  | Except.ok d => { s with laneStats := some d }
  | Except.error _ => s

/-- Completion of `fetchHistory` (lines 50–65): success stores the list;
failure changes nothing. -/
def fetchHistoryResult (s : StatsState) (r : Except String (List CrossingEvent)) :
    StatsState :=
  match r with
  | Except.ok d => { s with history := d }
  | Except.error _ => s

/-- C8: a failed lane-stats or history fetch leaves both the last-known-good
overall stats and the error state untouched; a failed overall-stats fetch sets
the visible error while retaining the previous snapshot; a successful
overall-stats fetch replaces the snapshot wholesale and clears the error; and
a successful lane-stats fetch updates the lane records without touching the
overall snapshot or the error. -/
theorem stats_fetch_error_isolation (s : StatsState) (m : String)
    (d : StatsSnapshot) (ld : List LaneRecord) :
    ((fetchLaneStatsResult s (Except.error m)).stats = s.stats ∧
      (fetchLaneStatsResult s (Except.error m)).error = s.error ∧
      (fetchLaneStatsResult s (Except.error m)).laneStats = s.laneStats) ∧
    ((fetchHistoryResult s (Except.error m)).stats = s.stats ∧
      (fetchHistoryResult s (Except.error m)).error = s.error) ∧
    ((fetchStatsResult s (Except.error m)).error = some m ∧
      (fetchStatsResult s (Except.error m)).stats = s.stats) ∧
    ((fetchStatsResult s (Except.ok d)).stats = some d ∧
      (fetchStatsResult s (Except.ok d)).error = none) ∧
    ((fetchLaneStatsResult s (Except.ok ld)).laneStats = some ld ∧
      (fetchLaneStatsResult s (Except.ok ld)).stats = s.stats ∧
      (fetchLaneStatsResult s (Except.ok ld)).error = s.error) :=
  ⟨⟨rfl, rfl, rfl⟩, ⟨rfl, rfl⟩, ⟨rfl, rfl⟩, ⟨rfl, rfl⟩, ⟨rfl, rfl, rfl⟩⟩

/-! ## Derived statistics, from `useStats` (lines 90–98) -/

/-- The `successRate` field of `derivedStats`:
`totalCrossings > 0 ? (successfulCrossings / totalCrossings) * 100 : 0`
(the display-only `toFixed(1)` string formatting is not modelled). -/
def successRate (s : StatsSnapshot) : ℚ :=
  if 0 < s.totalCrossings then
    ((s.successfulCrossings : ℚ) / (s.totalCrossings : ℚ)) * 100
  else 0

/-- The `averageLanes` field of `derivedStats`:
`totalRounds > 0 ? totalLanesCrossed / totalRounds : 0` (again without the
`toFixed(2)` formatting). -/
def averageLanes (s : StatsSnapshot) : ℚ :=
  if 0 < s.totalRounds then
    (s.totalLanesCrossed : ℚ) / (s.totalRounds : ℚ)
  else 0

/-- C10: derived fields come from guarded division.  With a positive
denominator the quotient satisfies the defining product equation (so the
division is the real one), and with a zero denominator the field is 0 rather
than the result of a division by zero. -/
theorem derived_stats_guarded (s : StatsSnapshot) :
    (0 < s.totalCrossings →
      successRate s * (s.totalCrossings : ℚ)
        = (s.successfulCrossings : ℚ) * 100) ∧
    (s.totalCrossings = 0 → successRate s = 0) ∧
    (0 < s.totalRounds →
      averageLanes s * (s.totalRounds : ℚ) = (s.totalLanesCrossed : ℚ)) ∧
    (s.totalRounds = 0 → averageLanes s = 0) := by
  refine ⟨?_, ?_, ?_, ?_⟩
  · intro h
    have hne : ((s.totalCrossings : ℚ)) ≠ 0 := by
      exact_mod_cast Nat.pos_iff_ne_zero.mp h
    rw [successRate, if_pos h]
    field_simp
  · intro h
    rw [successRate, if_neg (by omega)]
  · intro h
    have hne : ((s.totalRounds : ℚ)) ≠ 0 := by
      exact_mod_cast Nat.pos_iff_ne_zero.mp h
    rw [averageLanes, if_pos h]
    exact div_mul_cancel₀ _ hne
  · intro h
    rw [averageLanes, if_neg (by omega)]

/-- Witness for `derived_stats_guarded` at the snapshot with 2 rounds, 4
crossings, 3 successes and 7 lanes crossed in total. -/
theorem derived_stats_guarded_witness :
    (0 < (StatsSnapshot.mk 2 4 3 7).totalCrossings ∧
      successRate (StatsSnapshot.mk 2 4 3 7)
          * ((StatsSnapshot.mk 2 4 3 7).totalCrossings : ℚ)
        = ((StatsSnapshot.mk 2 4 3 7).successfulCrossings : ℚ) * 100) ∧
    (0 < (StatsSnapshot.mk 2 4 3 7).totalRounds ∧
      averageLanes (StatsSnapshot.mk 2 4 3 7)
          * ((StatsSnapshot.mk 2 4 3 7).totalRounds : ℚ)
        = ((StatsSnapshot.mk 2 4 3 7).totalLanesCrossed : ℚ)) :=
  ⟨⟨by decide, (derived_stats_guarded (StatsSnapshot.mk 2 4 3 7)).1 (by decide)⟩,
   ⟨by decide, (derived_stats_guarded (StatsSnapshot.mk 2 4 3 7)).2.2.1 (by decide)⟩⟩

end ChickenRoad
